import Mathlib

/-!
Shallow embedding of exa's Windows identity-resolution core and field model
(`src/fs/fields.rs`, `src/output/render/users_windows.rs`,
`src/output/render/groups_windows.rs`).

OS primitives (`GetNamedSecurityInfoW`, `LookupAccountSidW`, `GetLastError`)
are modelled as explicit oracle values describing the out-parameters and
return codes the OS would produce; the embedded functions consume those
oracles exactly as the source consumes the real calls. Nullable Win32
pointers (`PSID`, `PSECURITY_DESCRIPTOR`) are modelled as `Option Nat`, with
`none` standing for a null pointer, so that `is_invalid` becomes `isNone`.
-/

set_option autoImplicit false

namespace Exa

/-- The `std::io::ErrorKind` variants this core constructs. -/
inductive IoErrorKind where
  | notFound
  | permissionDenied
  | invalidInput
  deriving DecidableEq

/-- An `std::io::Error` as built by `io::Error::new(kind, msg)`. -/
structure IoError where
  kind : IoErrorKind
  msg : String
  deriving DecidableEq

/-- A `PSID`: nullable pointer to a SID. `none` models null (`is_invalid`). -/
abbrev Sid := Option Nat

/-- A `PSECURITY_DESCRIPTOR`: nullable pointer, `none` models null. -/
abbrev PSecurityDescriptor := Option Nat

/-- `NamedSecurityInfo` from `fs/fields.rs`: the acquired security descriptor
plus the owner and group SID pointers extracted from it. -/
structure NamedSecurityInfo where
  owner : Sid
  group : Sid
  security_descriptor : PSecurityDescriptor
  deriving DecidableEq

/-- The out-parameters produced by one `GetNamedSecurityInfoW` call: the
owner SID, group SID and security descriptor pointers it wrote back. -/
structure GetNamedSecurityInfoResult where
  sid_owner : Sid
  sid_group : Sid
  security_descriptor : PSecurityDescriptor
  deriving DecidableEq

/-- `impl TryFrom<&Path> for NamedSecurityInfo` (`fs/fields.rs`), embedded over
the outcome of the `GetNamedSecurityInfoW` call it makes: validate the three
out-pointers in source order and wrap them on success. -/
def NamedSecurityInfo.try_from (os : GetNamedSecurityInfoResult) :
    Except IoError NamedSecurityInfo :=
  if os.sid_owner.isNone then
    .error ⟨.notFound, "Owner SID not found"⟩
  else if os.sid_group.isNone then
    .error ⟨.notFound, "Group SID not found"⟩
  else if os.security_descriptor.isNone then
    .error ⟨.permissionDenied, "Security Descriptor Inaccessible"⟩
  else
    .ok ⟨os.sid_owner, os.sid_group, os.security_descriptor⟩

/-- Number of `LocalFree` calls appearing in the body of
`NamedSecurityInfo::try_from` (the source body contains none: every failing
check performs a plain early `return Err`). -/
def localFreeCallsInTryFromBody : Nat := 0

/-- Number of `LocalFree` calls performed by `impl Drop for NamedSecurityInfo`
(the source destructor performs exactly one). -/
def localFreeCallsInDrop : Nat := 1

/-- Total number of `LocalFree` invocations over a complete acquisition
lifetime starting from the given `GetNamedSecurityInfoW` outcome: on an `Err`
path no `NamedSecurityInfo` value is ever constructed, so `Drop::drop` never
runs and only the (nonexistent) frees in the `try_from` body happen; on the
`Ok` path the owned value is eventually dropped exactly once. -/
def descriptorFreeCount (os : GetNamedSecurityInfoResult) : Nat :=
  match NamedSecurityInfo.try_from os with
  | .error _ => localFreeCallsInTryFromBody
  | .ok _ => localFreeCallsInTryFromBody + localFreeCallsInDrop

/-- Oracle for the two `LookupAccountSidW` calls and `GetLastError`. Each
field is a function of the SID pointer passed to the call, so the embedding
records which SID a lookup hands to the OS. The `probe` fields describe the
null-buffer call (returned status and the character counts written to the two
out-parameters); the `fill` fields describe the real-buffer call (returned
status, the counts as updated by that call, and the UTF-16 code units the OS
wrote into each buffer). `last_error` is what `GetLastError` would report. -/
structure LookupAccountSidOs where
  probe_return : Sid → Bool
  probe_name_count : Sid → Nat
  probe_domain_count : Sid → Nat
  fill_return : Sid → Bool
  fill_name_count : Sid → Nat
  fill_domain_count : Sid → Nat
  fill_name_mem : Sid → List Nat
  fill_domain_mem : Sid → List Nat
  last_error : Nat

/-- `NamedSecurityInfo::lookup_account_sid_buffer` (`fs/fields.rs`): probe
`LookupAccountSidW` with null buffers on `self.owner`; a success return is an
`InvalidInput` error, a zero count for either name is a `NotFound` error,
otherwise return the two probed counts. -/
def NamedSecurityInfo.lookup_account_sid_buffer (self : NamedSecurityInfo)
    (os : LookupAccountSidOs) : Except IoError (Nat × Nat) :=
  let name_character_count := os.probe_name_count self.owner
  let domain_name_character_count := os.probe_domain_count self.owner
  let return_value := os.probe_return self.owner
  if return_value = true then
    .error ⟨.invalidInput,
      "LookupAccountSidW suceeded with null buffers when it should have failed"⟩
  else if name_character_count = 0 ∨ domain_name_character_count = 0 then
    .error ⟨.notFound, "SID was incorrect, causing domain/name count to return 0"⟩
  else
    .ok (name_character_count, domain_name_character_count)

/-- The replacement character U+FFFD. -/
def replacementChar : Char := Char.ofNat 0xFFFD

/-- `char::decode_utf16` + replacement, as used by `String::from_utf16_lossy`:
returns the decoded characters together with the number of UTF-16 code units
consumed. A non-surrogate unit decodes to itself; a high surrogate followed by
a low surrogate decodes as a pair (consuming two units); any unpaired
surrogate decodes to U+FFFD consuming one unit. -/
def utf16LossyRun : List Nat → List Char × Nat
  | [] => ([], 0)
  | u :: rest =>
    if u < 0xD800 ∨ 0xDFFF < u then
      let r := utf16LossyRun rest
      (Char.ofNat u :: r.1, r.2 + 1)
    else if u < 0xDC00 then
      match rest with
      | [] => ([replacementChar], 1)
      | v :: rest2 =>
        if 0xDC00 ≤ v ∧ v ≤ 0xDFFF then
          let r := utf16LossyRun rest2
          (Char.ofNat (0x10000 + (u - 0xD800) * 0x400 + (v - 0xDC00)) :: r.1, r.2 + 2)
        else
          let r := utf16LossyRun (v :: rest2)
          (replacementChar :: r.1, r.2 + 1)
    else
      let r := utf16LossyRun rest
      (replacementChar :: r.1, r.2 + 1)

/-- `String::from_utf16_lossy`: total lossy decoding of UTF-16 code units. -/
def from_utf16_lossy (l : List Nat) : String :=
  String.mk (utf16LossyRun l).1

/-- `NamedSecurityInfo::lookup_account_sid` (`fs/fields.rs`): probe for the
counts, make buffers, fill via a second `LookupAccountSidW` on `self.owner`
(on a failed return, surface `GetLastError` as `InvalidInput`), set each
buffer's length to the count as updated by the fill call, and decode both
buffers lossily. Buffer capacity (`Vec::with_capacity` of the probed counts)
does not affect the contents the OS wrote, so it does not appear here. -/
def NamedSecurityInfo.lookup_account_sid (self : NamedSecurityInfo)
    (os : LookupAccountSidOs) : Except IoError (String × String) :=
  match self.lookup_account_sid_buffer os with
  | .error e => .error e
  | .ok _counts =>
    let return_value := os.fill_return self.owner
    if return_value ≠ true then
      .error ⟨.invalidInput, toString os.last_error⟩
    else
      let name_character_count := os.fill_name_count self.owner
      let domain_name_character_count := os.fill_domain_count self.owner
      let name_buffer := (os.fill_name_mem self.owner).take name_character_count
      let domain_name_buffer :=
        (os.fill_domain_mem self.owner).take domain_name_character_count
      .ok (from_utf16_lossy name_buffer, from_utf16_lossy domain_name_buffer)

/-- `pub struct User(pub NamedSecurityInfo)` — the Windows variant from
`fs/fields.rs`. -/
structure User where
  info : NamedSecurityInfo
  deriving DecidableEq

/-- `pub struct Group(pub gid_t)` from `fs/fields.rs`: the declaration has no
`#[cfg(windows)]` variant, so on every platform the field wraps the numeric
group ID (`gid_t = u32`, embedded as a natural number). -/
structure Group where
  gid : Nat
  deriving DecidableEq

/-- `f::User::lookup_account_sid_buffer` (`output/render/users_windows.rs`):
a verbatim copy of the `NamedSecurityInfo` method operating on
`self.0.owner`. -/
def User.lookup_account_sid_buffer (self : User) (os : LookupAccountSidOs) :
    Except IoError (Nat × Nat) :=
  let name_character_count := os.probe_name_count self.info.owner
  let domain_name_character_count := os.probe_domain_count self.info.owner
  let return_value := os.probe_return self.info.owner
  if return_value = true then
    .error ⟨.invalidInput,
      "LookupAccountSidW suceeded with null buffers when it should have failed"⟩
  else if name_character_count = 0 ∨ domain_name_character_count = 0 then
    .error ⟨.notFound, "SID was incorrect, causing domain/name count to return 0"⟩
  else
    .ok (name_character_count, domain_name_character_count)

/-- `f::User::lookup_account_sid` (`output/render/users_windows.rs`): a
verbatim copy of the `NamedSecurityInfo` method operating on
`self.0.owner`. -/
def User.lookup_account_sid (self : User) (os : LookupAccountSidOs) :
    Except IoError (String × String) :=
  match self.lookup_account_sid_buffer os with
  | .error e => .error e
  | .ok _counts =>
    let return_value := os.fill_return self.info.owner
    if return_value ≠ true then
      .error ⟨.invalidInput, toString os.last_error⟩
    else
      let name_character_count := os.fill_name_count self.info.owner
      let domain_name_character_count := os.fill_domain_count self.info.owner
      let name_buffer := (os.fill_name_mem self.info.owner).take name_character_count
      let domain_name_buffer :=
        (os.fill_domain_mem self.info.owner).take domain_name_character_count
      .ok (from_utf16_lossy name_buffer, from_utf16_lossy domain_name_buffer)

/-- The one `ansi_term` colour this core constructs (`Colour::Red`). -/
inductive Colour where
  | red
  deriving DecidableEq

/-- An `ansi_term::Style`, reduced to the properties this core sets. -/
structure Style where
  bold : Bool
  fg : Option Colour
  deriving DecidableEq

/-- `Colour::bold()`: a style with that foreground colour and bold set. -/
def Colour.bold (c : Colour) : Style := ⟨true, some c⟩

/-- Modelled from the spec: the display-format configuration option
(`output/table.rs` is not under `src/`) — "currently accepted but not yet
applied". Its shape is irrelevant: the renders ignore it. -/
inductive UserFormat where
  | name
  | numeric
  deriving DecidableEq

/-- Modelled from the spec: a styled text cell (`output/cell.rs` is not under
`src/`) — render operations return "styled text". -/
structure TextCell where
  style : Style
  text : String
  deriving DecidableEq

/-- Modelled from the spec: `TextCell::paint(style, text)` pairs a style with
a text. -/
def TextCell.paint (style : Style) (text : String) : TextCell := ⟨style, text⟩

/-- The `Colours` trait of `users_windows.rs` (capability set "style for owner
match" / "style for non-match"), as a record of its two styles. -/
structure UserColours where
  you : Style
  someone_else : Style

/-- The `Colours` trait of `groups_windows.rs`, as a record of its styles. -/
structure GroupColours where
  yours : Style
  not_yours : Style

/-- `f::User::render` (`output/render/users_windows.rs`): look the owner SID
up; on success join domain and user name with "/" and paint with the
`someone_else` style, on failure paint the literal "ERROR" bold red. The
`_format` parameter is accepted and unused, as in the source; the `error!`
log call is a diagnostic side effect with no influence on the returned cell
and has no counterpart in the embedding. -/
def User.render (self : User) (colours : UserColours) (_format : UserFormat)
    (os : LookupAccountSidOs) : TextCell :=
  match self.lookup_account_sid os with
  | .ok (user_name, domain_name) =>
    TextCell.paint colours.someone_else (String.intercalate "/" [domain_name, user_name])
  | .error _ =>
    TextCell.paint Colour.red.bold "ERROR"

/-- Modelled from the spec: the Windows payload of the `Group` field — "same
resolution path as User", i.e. a wrapped `NamedSecurityInfo`. The declaration
in `fs/fields.rs` lacks this `#[cfg(windows)]` variant (it wraps `gid_t`
unconditionally), yet `groups_windows.rs` requires a security-info payload. -/
structure GroupWindows where
  info : NamedSecurityInfo
  deriving DecidableEq

/-- `f::Group::render` (`output/render/groups_windows.rs`): same shape as the
user render with the `not_yours` style. The source invokes
`self.0.lookup_account_sid(true)`; the only `lookup_account_sid` defined in
the sources is the unary `NamedSecurityInfo` method, which resolves the owner
SID, so the call is embedded as that method on the wrapped security info and
the unmatched flag argument is dropped. -/
def GroupWindows.render (self : GroupWindows) (colours : GroupColours)
    (_format : UserFormat) (os : LookupAccountSidOs) : TextCell :=
  match self.info.lookup_account_sid os with
  | .ok (group_name, domain_name) =>
    TextCell.paint colours.not_yours (String.intercalate "/" [domain_name, group_name])
  | .error _ =>
    TextCell.paint Colour.red.bold "ERROR"

/-- `pub enum Type` from `fs/fields.rs` (named `FileType` here because `Type`
is not available as a Lean identifier), with its eight variants in declaration
order. -/
inductive FileType where
  | Directory
  | File
  | Link
  | Pipe
  | Socket
  | CharDevice
  | BlockDevice
  | Special
  deriving DecidableEq, Fintype

/-- The variant discriminant, in declaration order — what Rust's
`#[derive(PartialOrd, Ord)]` compares for a fieldless enum. -/
def FileType.discriminant : FileType → Nat
  | .Directory => 0
  | .File => 1
  | .Link => 2
  | .Pipe => 3
  | .Socket => 4
  | .CharDevice => 5
  | .BlockDevice => 6
  | .Special => 7

/-- The derived `Ord`: `a <= b` compares discriminants. -/
def FileType.le (a b : FileType) : Prop := a.discriminant ≤ b.discriminant

/-- The derived `Ord`: `a < b` compares discriminants. -/
def FileType.lt (a b : FileType) : Prop := a.discriminant < b.discriminant

instance (a b : FileType) : Decidable (FileType.le a b) :=
  inferInstanceAs (Decidable (a.discriminant ≤ b.discriminant))

instance (a b : FileType) : Decidable (FileType.lt a b) :=
  inferInstanceAs (Decidable (a.discriminant < b.discriminant))

/-! ## Helper lemmas -/

/-- Lossy UTF-16 decoding consumes every code unit of its input: the consumed
count returned by `utf16LossyRun` is the input length. -/
theorem utf16LossyRun_consumed : ∀ l : List Nat, (utf16LossyRun l).2 = l.length
  | [] => rfl
  | [u] => by
    by_cases h1 : u < 0xD800 ∨ 0xDFFF < u <;>
      by_cases h2 : u < 0xDC00 <;>
        simp [utf16LossyRun, h1, h2]
  | u :: v :: rest2 => by
    by_cases h1 : u < 0xD800 ∨ 0xDFFF < u
    · simp [utf16LossyRun, h1, utf16LossyRun_consumed (v :: rest2)]
    · by_cases h2 : u < 0xDC00
      · by_cases h3 : 0xDC00 ≤ v ∧ v ≤ 0xDFFF
        · simp [utf16LossyRun, h1, h2, h3, utf16LossyRun_consumed rest2]
        · simp [utf16LossyRun, h1, h2, h3, utf16LossyRun_consumed (v :: rest2)]
      · simp [utf16LossyRun, h1, h2, utf16LossyRun_consumed (v :: rest2)]

/-- The copied `User` probe method agrees with the `NamedSecurityInfo` one. -/
theorem User.lookup_account_sid_buffer_eq (s : NamedSecurityInfo)
    (os : LookupAccountSidOs) :
    (User.mk s).lookup_account_sid_buffer os = s.lookup_account_sid_buffer os := rfl

/-- The copied `User` lookup method agrees with the `NamedSecurityInfo` one. -/
theorem User.lookup_account_sid_eq (s : NamedSecurityInfo)
    (os : LookupAccountSidOs) :
    (User.mk s).lookup_account_sid os = s.lookup_account_sid os := rfl

/-! ## Claims -/

/-- C1: the release operation is NOT invoked on every exit path. At the
failing input — the OS allocated the security descriptor (non-null) but the
owner SID came back null — `try_from` returns `Err` before a
`NamedSecurityInfo` exists, so `Drop` never runs and `LocalFree` is invoked
zero times, not once. -/
theorem c1_no_release_on_partial_failure :
    descriptorFreeCount ⟨none, none, some 7⟩ = 0 ∧
    NamedSecurityInfo.try_from ⟨none, none, some 7⟩ =
      .error ⟨.notFound, "Owner SID not found"⟩ := by
  constructor <;> rfl

/-- C2: in the source, `Group` wraps the numeric group ID on every platform —
evaluated at the failing input `Group(42)`, the payload is the number 42, not
an owning `NamedSecurityInfo` handle. -/
theorem c2_group_payload_is_numeric : (Group.mk 42).gid = 42 := rfl

/-- C3: descriptor acquisition maps each failure condition, in the source's
check order, to its distinct error kind: null owner SID to `NotFound`, null
group SID to `NotFound`, null security descriptor to `PermissionDenied`. -/
theorem c3_try_from_error_mapping :
    (∀ os : GetNamedSecurityInfoResult, os.sid_owner = none →
      NamedSecurityInfo.try_from os = .error ⟨.notFound, "Owner SID not found"⟩)
    ∧ (∀ os : GetNamedSecurityInfoResult, os.sid_owner ≠ none → os.sid_group = none →
      NamedSecurityInfo.try_from os = .error ⟨.notFound, "Group SID not found"⟩)
    ∧ (∀ os : GetNamedSecurityInfoResult, os.sid_owner ≠ none → os.sid_group ≠ none →
      os.security_descriptor = none →
      NamedSecurityInfo.try_from os =
        .error ⟨.permissionDenied, "Security Descriptor Inaccessible"⟩) := by
  refine ⟨fun os h => ?_, fun os h1 h2 => ?_, fun os h1 h2 h3 => ?_⟩ <;>
    simp [NamedSecurityInfo.try_from, Option.isNone_iff_eq_none, *]

/-- Witness for C3 at concrete acquisition outcomes. -/
theorem c3_try_from_error_mapping_witness :
    NamedSecurityInfo.try_from ⟨none, some 1, some 2⟩ =
      .error ⟨.notFound, "Owner SID not found"⟩
    ∧ NamedSecurityInfo.try_from ⟨some 1, none, some 2⟩ =
      .error ⟨.notFound, "Group SID not found"⟩
    ∧ NamedSecurityInfo.try_from ⟨some 1, some 2, none⟩ =
      .error ⟨.permissionDenied, "Security Descriptor Inaccessible"⟩ :=
  ⟨c3_try_from_error_mapping.1 _ rfl,
   c3_try_from_error_mapping.2.1 _ (by simp) rfl,
   c3_try_from_error_mapping.2.2 _ (by simp) (by simp) rfl⟩

/-- C9: the derived comparison on `FileType` is a total order (total,
antisymmetric, transitive), `Directory` is least, `Special` is greatest, and
the variants ascend strictly in declaration order — so sorting any set of
values orders it consistently with the declaration order. -/
theorem c9_type_order_total_declaration_order :
    (∀ a b : FileType, FileType.le a b ∨ FileType.le b a)
    ∧ (∀ a b : FileType, FileType.le a b → FileType.le b a → a = b)
    ∧ (∀ a b c : FileType, FileType.le a b → FileType.le b c → FileType.le a c)
    ∧ (∀ t : FileType, FileType.le .Directory t ∧ FileType.le t .Special)
    ∧ FileType.lt .Directory .File ∧ FileType.lt .File .Link
    ∧ FileType.lt .Link .Pipe ∧ FileType.lt .Pipe .Socket
    ∧ FileType.lt .Socket .CharDevice ∧ FileType.lt .CharDevice .BlockDevice
    ∧ FileType.lt .BlockDevice .Special := by
  decide

/-- Witness for C9: transitivity applied at concrete variants. -/
theorem c9_type_order_witness : FileType.le .Directory .Link :=
  c9_type_order_total_declaration_order.2.2.1 .Directory .File .Link
    (by decide) (by decide)

/-- C4: whenever the null-buffer probe call returns success, both SID
resolutions (the `NamedSecurityInfo` methods and the copied `User` methods)
fail with `InvalidInput`; since this holds for every oracle regardless of its
fill-phase fields, the fill phase is never consulted. -/
theorem c4_probe_success_invalid_input :
    ∀ (os : LookupAccountSidOs) (s : NamedSecurityInfo),
      os.probe_return s.owner = true →
      s.lookup_account_sid_buffer os = .error ⟨.invalidInput,
        "LookupAccountSidW suceeded with null buffers when it should have failed"⟩
      ∧ s.lookup_account_sid os = .error ⟨.invalidInput,
        "LookupAccountSidW suceeded with null buffers when it should have failed"⟩
      ∧ (User.mk s).lookup_account_sid_buffer os = .error ⟨.invalidInput,
        "LookupAccountSidW suceeded with null buffers when it should have failed"⟩
      ∧ (User.mk s).lookup_account_sid os = .error ⟨.invalidInput,
        "LookupAccountSidW suceeded with null buffers when it should have failed"⟩ := by
  intro os s h
  refine ⟨?_, ?_, ?_, ?_⟩ <;>
    simp [NamedSecurityInfo.lookup_account_sid, NamedSecurityInfo.lookup_account_sid_buffer,
      User.lookup_account_sid, User.lookup_account_sid_buffer, h]

/-- Witness for C4 at a concrete oracle whose probe reports success. -/
theorem c4_probe_success_invalid_input_witness :
    NamedSecurityInfo.lookup_account_sid_buffer ⟨some 1, some 2, some 3⟩
      ⟨fun _ => true, fun _ => 7, fun _ => 7, fun _ => true, fun _ => 1, fun _ => 1,
       fun _ => [65], fun _ => [66], 5⟩ = .error ⟨.invalidInput,
      "LookupAccountSidW suceeded with null buffers when it should have failed"⟩
    ∧ NamedSecurityInfo.lookup_account_sid ⟨some 1, some 2, some 3⟩
      ⟨fun _ => true, fun _ => 7, fun _ => 7, fun _ => true, fun _ => 1, fun _ => 1,
       fun _ => [65], fun _ => [66], 5⟩ = .error ⟨.invalidInput,
      "LookupAccountSidW suceeded with null buffers when it should have failed"⟩ :=
  ⟨(c4_probe_success_invalid_input _ ⟨some 1, some 2, some 3⟩ rfl).1,
   (c4_probe_success_invalid_input _ ⟨some 1, some 2, some 3⟩ rfl).2.1⟩

/-- C5: whenever the probe call fails as expected but reports a zero count
for the name or the domain, both SID resolutions fail with `NotFound`; since
this holds for every oracle regardless of its fill-phase fields, the fill
phase is never attempted. -/
theorem c5_zero_count_not_found :
    ∀ (os : LookupAccountSidOs) (s : NamedSecurityInfo),
      os.probe_return s.owner = false →
      (os.probe_name_count s.owner = 0 ∨ os.probe_domain_count s.owner = 0) →
      s.lookup_account_sid_buffer os = .error ⟨.notFound,
        "SID was incorrect, causing domain/name count to return 0"⟩
      ∧ s.lookup_account_sid os = .error ⟨.notFound,
        "SID was incorrect, causing domain/name count to return 0"⟩
      ∧ (User.mk s).lookup_account_sid_buffer os = .error ⟨.notFound,
        "SID was incorrect, causing domain/name count to return 0"⟩
      ∧ (User.mk s).lookup_account_sid os = .error ⟨.notFound,
        "SID was incorrect, causing domain/name count to return 0"⟩ := by
  intro os s h1 h2
  rcases h2 with h | h <;> refine ⟨?_, ?_, ?_, ?_⟩ <;>
    simp [NamedSecurityInfo.lookup_account_sid, NamedSecurityInfo.lookup_account_sid_buffer,
      User.lookup_account_sid, User.lookup_account_sid_buffer, h1, h]

/-- Witness for C5 at a concrete oracle probing a zero name count. -/
theorem c5_zero_count_not_found_witness :
    NamedSecurityInfo.lookup_account_sid_buffer ⟨some 1, some 2, some 3⟩
      ⟨fun _ => false, fun _ => 0, fun _ => 7, fun _ => true, fun _ => 1, fun _ => 1,
       fun _ => [65], fun _ => [66], 5⟩ = .error ⟨.notFound,
      "SID was incorrect, causing domain/name count to return 0"⟩
    ∧ NamedSecurityInfo.lookup_account_sid ⟨some 1, some 2, some 3⟩
      ⟨fun _ => false, fun _ => 0, fun _ => 7, fun _ => true, fun _ => 1, fun _ => 1,
       fun _ => [65], fun _ => [66], 5⟩ = .error ⟨.notFound,
      "SID was incorrect, causing domain/name count to return 0"⟩ :=
  ⟨(c5_zero_count_not_found _ ⟨some 1, some 2, some 3⟩ rfl (Or.inl rfl)).1,
   (c5_zero_count_not_found _ ⟨some 1, some 2, some 3⟩ rfl (Or.inl rfl)).2.1⟩

/-- C6: when the probe succeeds (failing return, both counts nonzero) and the
fill call returns success reporting name count N and domain count M (the OS
having written N and M code units), both resolutions decode exactly the
buffers whose logical lengths were set to N and M, the decoding is total
(lossy, replacement character for malformed sequences), and it consumes
exactly N and M UTF-16 code units. -/
theorem c6_fill_success_exact_counts :
    ∀ (os : LookupAccountSidOs) (s : NamedSecurityInfo),
      os.probe_return s.owner = false →
      os.probe_name_count s.owner ≠ 0 →
      os.probe_domain_count s.owner ≠ 0 →
      os.fill_return s.owner = true →
      (os.fill_name_mem s.owner).length = os.fill_name_count s.owner →
      (os.fill_domain_mem s.owner).length = os.fill_domain_count s.owner →
      s.lookup_account_sid os =
        .ok (from_utf16_lossy (os.fill_name_mem s.owner),
             from_utf16_lossy (os.fill_domain_mem s.owner))
      ∧ (User.mk s).lookup_account_sid os =
        .ok (from_utf16_lossy (os.fill_name_mem s.owner),
             from_utf16_lossy (os.fill_domain_mem s.owner))
      ∧ (utf16LossyRun (os.fill_name_mem s.owner)).2 = os.fill_name_count s.owner
      ∧ (utf16LossyRun (os.fill_domain_mem s.owner)).2 = os.fill_domain_count s.owner := by
  intro os s h1 h2 h3 h4 h5 h6
  have hn : (os.fill_name_mem s.owner).take (os.fill_name_count s.owner) =
      os.fill_name_mem s.owner := by
    rw [← h5]; exact List.take_length _
  have hd : (os.fill_domain_mem s.owner).take (os.fill_domain_count s.owner) =
      os.fill_domain_mem s.owner := by
    rw [← h6]; exact List.take_length _
  refine ⟨?_, ?_, ?_, ?_⟩
  · simp [NamedSecurityInfo.lookup_account_sid, NamedSecurityInfo.lookup_account_sid_buffer,
      h1, h2, h3, h4, hn, hd]
  · simp [User.lookup_account_sid, User.lookup_account_sid_buffer,
      h1, h2, h3, h4, hn, hd]
  · rw [utf16LossyRun_consumed, h5]
  · rw [utf16LossyRun_consumed, h6]

/-- Witness for C6 at a concrete oracle filling one code unit per buffer. -/
theorem c6_fill_success_exact_counts_witness :
    NamedSecurityInfo.lookup_account_sid ⟨some 1, some 2, some 3⟩
      ⟨fun _ => false, fun _ => 1, fun _ => 1, fun _ => true, fun _ => 1, fun _ => 1,
       fun _ => [65], fun _ => [66], 5⟩ = .ok ("A", "B")
    ∧ (utf16LossyRun [65]).2 = 1 :=
  ⟨(c6_fill_success_exact_counts
      ⟨fun _ => false, fun _ => 1, fun _ => 1, fun _ => true, fun _ => 1, fun _ => 1,
       fun _ => [65], fun _ => [66], 5⟩ ⟨some 1, some 2, some 3⟩ rfl (by decide) (by decide)
      rfl rfl rfl).1,
   (c6_fill_success_exact_counts
      ⟨fun _ => false, fun _ => 1, fun _ => 1, fun _ => true, fun _ => 1, fun _ => 1,
       fun _ => [65], fun _ => [66], 5⟩ ⟨some 1, some 2, some 3⟩ rfl (by decide) (by decide)
      rfl rfl rfl).2.2.1⟩

/-- C7: when resolution fails, the user and group renders return the literal
text "ERROR" painted with the bold red alert style; the renders are total
functions into `TextCell`, so the failure never propagates past them. -/
theorem c7_render_failure_is_error_cell :
    ∀ (os : LookupAccountSidOs) (s : NamedSecurityInfo) (uc : UserColours)
      (gc : GroupColours) (fmt : UserFormat) (e : IoError),
      ((User.mk s).lookup_account_sid os = .error e →
        (User.mk s).render uc fmt os = TextCell.paint Colour.red.bold "ERROR")
      ∧ (s.lookup_account_sid os = .error e →
        GroupWindows.render ⟨s⟩ gc fmt os = TextCell.paint Colour.red.bold "ERROR") := by
  intro os s uc gc fmt e
  constructor <;> intro h <;> simp [User.render, GroupWindows.render, h]

/-- Witness for C7 at a concrete failing oracle. -/
theorem c7_render_failure_witness :
    User.render ⟨⟨some 1, some 2, some 3⟩⟩ ⟨⟨false, none⟩, ⟨false, none⟩⟩ .name
      ⟨fun _ => true, fun _ => 7, fun _ => 7, fun _ => true, fun _ => 1, fun _ => 1,
       fun _ => [65], fun _ => [66], 5⟩ = TextCell.paint Colour.red.bold "ERROR"
    ∧ GroupWindows.render ⟨⟨some 1, some 2, some 3⟩⟩ ⟨⟨false, none⟩, ⟨false, none⟩⟩ .name
      ⟨fun _ => true, fun _ => 7, fun _ => 7, fun _ => true, fun _ => 1, fun _ => 1,
       fun _ => [65], fun _ => [66], 5⟩ = TextCell.paint Colour.red.bold "ERROR" :=
  ⟨(c7_render_failure_is_error_cell _ ⟨some 1, some 2, some 3⟩ _ ⟨⟨false, none⟩, ⟨false, none⟩⟩
      .name ⟨.invalidInput,
        "LookupAccountSidW suceeded with null buffers when it should have failed"⟩).1 rfl,
   (c7_render_failure_is_error_cell _ ⟨some 1, some 2, some 3⟩ ⟨⟨false, none⟩, ⟨false, none⟩⟩ _
      .name ⟨.invalidInput,
        "LookupAccountSidW suceeded with null buffers when it should have failed"⟩).2 rfl⟩

/-- C8: when resolution succeeds with account name and domain, the user
render paints domain/name joined with "/" in the `someone_else` style and the
group render paints it in the `not_yours` style, unconditionally; the
display-format parameter has no effect on either result. -/
theorem c8_render_success_join_unconditional_style :
    ∀ (os : LookupAccountSidOs) (s : NamedSecurityInfo) (uc : UserColours)
      (gc : GroupColours) (fmt fmt2 : UserFormat) (name domain : String),
      s.lookup_account_sid os = .ok (name, domain) →
      (User.mk s).render uc fmt os =
        TextCell.paint uc.someone_else (String.intercalate "/" [domain, name])
      ∧ GroupWindows.render ⟨s⟩ gc fmt os =
        TextCell.paint gc.not_yours (String.intercalate "/" [domain, name])
      ∧ (User.mk s).render uc fmt os = (User.mk s).render uc fmt2 os
      ∧ GroupWindows.render ⟨s⟩ gc fmt os = GroupWindows.render ⟨s⟩ gc fmt2 os := by
  intro os s uc gc fmt fmt2 name domain h
  have hu : (User.mk s).lookup_account_sid os = .ok (name, domain) :=
    (User.lookup_account_sid_eq s os).trans h
  exact ⟨by simp [User.render, hu], by simp [GroupWindows.render, h], rfl, rfl⟩

/-- Witness for C8 at a concrete succeeding oracle. -/
theorem c8_render_success_witness :
    User.render ⟨⟨some 1, some 2, some 3⟩⟩ ⟨⟨false, none⟩, ⟨true, some .red⟩⟩ .name
      ⟨fun _ => false, fun _ => 1, fun _ => 1, fun _ => true, fun _ => 1, fun _ => 1,
       fun _ => [72], fun _ => [87], 5⟩ = TextCell.paint ⟨true, some .red⟩ "W/H"
    ∧ GroupWindows.render ⟨⟨some 1, some 2, some 3⟩⟩ ⟨⟨false, none⟩, ⟨true, some .red⟩⟩ .name
      ⟨fun _ => false, fun _ => 1, fun _ => 1, fun _ => true, fun _ => 1, fun _ => 1,
       fun _ => [72], fun _ => [87], 5⟩ = TextCell.paint ⟨true, some .red⟩ "W/H" :=
  ⟨(c8_render_success_join_unconditional_style
      ⟨fun _ => false, fun _ => 1, fun _ => 1, fun _ => true, fun _ => 1, fun _ => 1,
       fun _ => [72], fun _ => [87], 5⟩ ⟨some 1, some 2, some 3⟩
      ⟨⟨false, none⟩, ⟨true, some .red⟩⟩ ⟨⟨false, none⟩, ⟨true, some .red⟩⟩
      .name .numeric "H" "W" rfl).1,
   (c8_render_success_join_unconditional_style
      ⟨fun _ => false, fun _ => 1, fun _ => 1, fun _ => true, fun _ => 1, fun _ => 1,
       fun _ => [72], fun _ => [87], 5⟩ ⟨some 1, some 2, some 3⟩
      ⟨⟨false, none⟩, ⟨true, some .red⟩⟩ ⟨⟨false, none⟩, ⟨true, some .red⟩⟩
      .name .numeric "H" "W" rfl).2.1⟩

/-- C10: every lookup (probe and fill, in both the `NamedSecurityInfo`
methods and the copied `User` methods) hands the OS the owner SID only: two
security infos with the same owner but arbitrary group SIDs produce identical
lookup results and identical group renders, and the group path's resolution
coincides with the user path's. -/
theorem c10_lookups_use_owner_sid_only :
    ∀ (os : LookupAccountSidOs) (s t : NamedSecurityInfo),
      s.owner = t.owner →
      s.lookup_account_sid_buffer os = t.lookup_account_sid_buffer os
      ∧ s.lookup_account_sid os = t.lookup_account_sid os
      ∧ (User.mk s).lookup_account_sid_buffer os = (User.mk t).lookup_account_sid_buffer os
      ∧ (User.mk s).lookup_account_sid os = (User.mk t).lookup_account_sid os
      ∧ (∀ (gc : GroupColours) (fmt : UserFormat),
          GroupWindows.render ⟨s⟩ gc fmt os = GroupWindows.render ⟨t⟩ gc fmt os)
      ∧ s.lookup_account_sid os = (User.mk s).lookup_account_sid os := by
  intro os s t h
  refine ⟨?_, ?_, ?_, ?_, fun gc fmt => ?_, (User.lookup_account_sid_eq s os).symm⟩ <;>
    simp [NamedSecurityInfo.lookup_account_sid, NamedSecurityInfo.lookup_account_sid_buffer,
      User.lookup_account_sid, User.lookup_account_sid_buffer, GroupWindows.render, h]

/-- Witness for C10: same owner SID, different group SIDs and descriptors,
identical resolution. -/
theorem c10_lookups_use_owner_sid_only_witness :
    NamedSecurityInfo.lookup_account_sid ⟨some 1, some 2, some 3⟩
      ⟨fun _ => false, fun _ => 1, fun _ => 1, fun _ => true, fun _ => 1, fun _ => 1,
       fun _ => [72], fun _ => [87], 5⟩ =
    NamedSecurityInfo.lookup_account_sid ⟨some 1, some 9, none⟩
      ⟨fun _ => false, fun _ => 1, fun _ => 1, fun _ => true, fun _ => 1, fun _ => 1,
       fun _ => [72], fun _ => [87], 5⟩ :=
  (c10_lookups_use_owner_sid_only _ ⟨some 1, some 2, some 3⟩ ⟨some 1, some 9, none⟩ rfl).2.1

end Exa
